import Mathlib

/-!
Verification of the Tuya DIN power-meter quirk (`ts0601_powermeter.py`).

The file under `src/` supplies device-specific configuration data — the
datapoint-to-attribute mapping tables (`dp_to_attribute`), handler tables
(`data_point_handlers`), constant-attribute tables (`_CONSTANT_ATTRIBUTES`),
and the connection-status handler — on top of the generic Tuya MCU dispatch
engine of the surrounding `zhaquirks`/`zigpy` libraries.  The configuration
data and the handler are embedded directly from the source; the engine's
dispatch, store and table-loading semantics are modelled from the spec, as
noted on each such definition.

Numerics: Python's `//` on integers is floor division (`Int.fdiv`);
`x >> 16` on an arbitrary Python integer equals floor division by `2^16`
and `x & 0xFFFF` equals `x mod 2^16` (Python's nonneg remainder, `Int.emod`);
Python's true division `/` on the decoded integer operands is modelled
exactly as rational division (all concrete values claimed are exact).
-/

set_option autoImplicit false

namespace TS0601PowerMeter

/-- A value held in a cluster's attribute cache.  Python is uni-typed; the
values this device ever stores are integers and exact rationals (results of
Python true division). -/
inductive AttrValue where
  | int (v : ℤ)
  | rat (v : ℚ)
deriving DecidableEq, Repr

/-- Modelled from the spec: a Local Attribute Store address — a logical
cluster key together with a ZCL attribute id. -/
structure AttrKey where
  cluster : String
  attr_id : ℕ
deriving DecidableEq, Repr

/-- Modelled from the spec: the mutable part of the Local Attribute Store,
an association list from attribute address to current value. -/
abbrev Store := List (AttrKey × AttrValue)

/-- Modelled from the spec: current value of an attribute in the mutable
store (first entry with the given key). -/
def lookupStore : Store → AttrKey → Option AttrValue
  | [], _ => none
  | (k, w) :: rest, key => if k = key then some w else lookupStore rest key

/-- Modelled from the spec: raw overwrite of one attribute in the mutable
store — replace in place when present, append when absent. -/
def storeWrite : Store → AttrKey → AttrValue → Store
  | [], key, v => [(key, v)]
  | (k, w) :: rest, key, v =>
      if k = key then (key, v) :: rest else (k, w) :: storeWrite rest key v

namespace TuyaPowerMeasurement

/-- Source: `TuyaPowerMeasurement.AC_CURRENT_MULTIPLIER`. -/
def AC_CURRENT_MULTIPLIER : ℕ := 0x0602

/-- Source: `TuyaPowerMeasurement.AC_CURRENT_DIVISOR`. -/
def AC_CURRENT_DIVISOR : ℕ := 0x0603

/-- The zigpy `ElectricalMeasurement.ep_attribute` cluster key. -/
def ep_attribute : String := "electrical_measurement"

/-- Source: `TuyaPowerMeasurement._CONSTANT_ATTRIBUTES`. -/
def CONSTANT_ATTRIBUTES : ℕ → Option AttrValue := fun aid =>
  if aid = AC_CURRENT_MULTIPLIER then some (.int 1)
  else if aid = AC_CURRENT_DIVISOR then some (.int 1000)
  else none

end TuyaPowerMeasurement

namespace TuyaElectricalMeasurement

/-- Source: `TuyaElectricalMeasurement.POWER_WATT`. -/
def POWER_WATT : ℕ := 0x0000

/-- The zigpy `Metering.ep_attribute` cluster key. -/
def ep_attribute : String := "smartenergy_metering"

/-- Source: `TuyaElectricalMeasurement._CONSTANT_ATTRIBUTES`
(`0x0300` unit_of_measure, `0x0302` divisor). -/
def CONSTANT_ATTRIBUTES : ℕ → Option AttrValue := fun aid =>
  if aid = 0x0300 then some (.int POWER_WATT)
  else if aid = 0x0302 then some (.int 1000)
  else none

end TuyaElectricalMeasurement

namespace TuyaOnOff

/-- The zigpy `OnOff.ep_attribute` cluster key. -/
def ep_attribute : String := "on_off"

end TuyaOnOff

/-- Constant attributes of the device's clusters, combining the two
`_CONSTANT_ATTRIBUTES` tables of the source. -/
def constantAttributes (k : AttrKey) : Option AttrValue :=
  if k.cluster = TuyaPowerMeasurement.ep_attribute then
    TuyaPowerMeasurement.CONSTANT_ATTRIBUTES k.attr_id
  else if k.cluster = TuyaElectricalMeasurement.ep_attribute then
    TuyaElectricalMeasurement.CONSTANT_ATTRIBUTES k.attr_id
  else none

/-- Modelled from the spec: the device's declared attribute schema (an
external contract, §1) — ZCL attribute ids for the attribute names the
mapping tables target, per cluster. -/
def attributeIdOf (cluster name : String) : Option ℕ :=
  if cluster = TuyaPowerMeasurement.ep_attribute then
    if name = "ac_frequency" then some 0x0300
    else if name = "total_reactive_power" then some 0x0305
    else if name = "rms_voltage" then some 0x0505
    else if name = "rms_current" then some 0x0508
    else if name = "active_power" then some 0x050B
    else if name = "reactive_power" then some 0x050E
    else if name = "power_factor" then some 0x0510
    else if name = "ac_current_multiplier" then some 0x0602
    else if name = "ac_current_divisor" then some 0x0603
    else none
  else if cluster = TuyaElectricalMeasurement.ep_attribute then
    if name = "current_summ_delivered" then some 0x0000
    else if name = "current_summ_received" then some 0x0001
    else if name = "unit_of_measure" then some 0x0300
    else if name = "divisor" then some 0x0302
    else none
  else if cluster = TuyaOnOff.ep_attribute then
    if name = "on_off" then some 0x0000
    else none
  else none

/-- Modelled from the spec (§4.3): `write` resolves the attribute name to
its id and overwrites the current value; constant attributes are never
affected by `write`. -/
def clusterWrite (s : Store) (cluster name : String) (v : AttrValue) : Store :=
  match attributeIdOf cluster name with
  | none => s
  | some aid =>
      if (constantAttributes ⟨cluster, aid⟩).isSome then s
      else storeWrite s ⟨cluster, aid⟩ v

/-- Modelled from the spec (§4.3): `read` returns the constant override
when the attribute is declared constant, the current stored value
otherwise. -/
def clusterRead (s : Store) (k : AttrKey) : Option AttrValue :=
  match constantAttributes k with
  | some v => some v
  | none => lookupStore s k

/-- Target of a `DPToAttributeMapping`: one attribute name or an ordered
pair of names (fan-out), as in the source tables. -/
inductive AttrTarget where
  | single (name : String)
  | pair (fst snd : String)
deriving DecidableEq, Repr

/-- Result of a conversion function: one value or a pair of values. -/
inductive ConvOut where
  | one (v : AttrValue)
  | two (fst snd : AttrValue)
deriving DecidableEq, Repr

/-- The `DPToAttributeMapping` record of `zhaquirks.tuya.mcu`: target
cluster, target attribute name(s), optional converter. -/
structure DPToAttributeMapping where
  ep_attribute : String
  attribute_name : AttrTarget
  converter : Option (ℤ → ConvOut) := none

/-- A decoded datapoint report: id and (integer-typed) value. -/
structure DatapointReport where
  id : ℕ
  value : ℤ
deriving DecidableEq, Repr

/-- The value a mapping stores for a raw datapoint value: `converter`
applied to it, or the identity when no converter is configured. -/
def applyConverter (m : DPToAttributeMapping) (v : ℤ) : ConvOut :=
  match m.converter with
  | none => .one (.int v)
  | some f => f v

namespace DinPowerManufCluster

/-- Source: `DinPowerManufCluster.dp_to_attribute` (lines 98-136).
The `0x06` converter is `lambda x: (x >> 16, (x & 0x0000FFFF) / 10)`:
`x >> 16` is `Int.fdiv x 65536` and `x & 0xFFFF` is `Int.emod x 65536`. -/
def dp_to_attribute : ℕ → Option DPToAttributeMapping := fun dp =>
  if dp = 0x01 then
    some ⟨TuyaElectricalMeasurement.ep_attribute, .single "current_summ_delivered", none⟩
  else if dp = 0x06 then
    some ⟨TuyaPowerMeasurement.ep_attribute, .pair "rms_current" "rms_voltage",
      some fun x => .two (.int (Int.fdiv x 65536)) (.rat ((Int.emod x 65536 : ℚ) / 10))⟩
  else if dp = 0x10 then
    some ⟨TuyaOnOff.ep_attribute, .single "on_off", none⟩
  else if dp = 0x66 then
    some ⟨TuyaElectricalMeasurement.ep_attribute, .single "current_summ_received", none⟩
  else if dp = 0x67 then
    some ⟨TuyaPowerMeasurement.ep_attribute, .single "active_power", none⟩
  else if dp = 0x69 then
    some ⟨TuyaPowerMeasurement.ep_attribute, .single "ac_frequency", none⟩
  else if dp = 0x6D then
    some ⟨TuyaPowerMeasurement.ep_attribute, .single "total_reactive_power", none⟩
  else if dp = 0x6E then
    some ⟨TuyaPowerMeasurement.ep_attribute, .single "reactive_power", none⟩
  else if dp = 0x6F then
    some ⟨TuyaPowerMeasurement.ep_attribute, .single "power_factor", none⟩
  else none

/-- Source: `DinPowerManufCluster.data_point_handlers` (lines 138-148),
as the set of datapoint ids that have a registered handler. -/
def data_point_handlers : ℕ → Bool := fun dp =>
  dp = 0x01 || dp = 0x06 || dp = 0x10 || dp = 0x66 || dp = 0x67 ||
    dp = 0x69 || dp = 0x6D || dp = 0x6E || dp = 0x6F

end DinPowerManufCluster

namespace TuyaManufClusterDinPower

/-- Source: `TuyaManufClusterDinPower.dp_to_attribute` (lines 154-173).
In Python a class attribute redefined in a subclass replaces the parent's,
so this table is the whole table of the subclass.  The `19` and `20`
converters are `lambda x: x // 10`, i.e. `Int.fdiv x 10`. -/
def dp_to_attribute : ℕ → Option DPToAttributeMapping := fun dp =>
  if dp = 17 then
    some ⟨TuyaElectricalMeasurement.ep_attribute, .single "current_summ_delivered", none⟩
  else if dp = 18 then
    some ⟨TuyaPowerMeasurement.ep_attribute, .single "rms_current", none⟩
  else if dp = 19 then
    some ⟨TuyaPowerMeasurement.ep_attribute, .single "active_power",
      some fun x => .one (.int (Int.fdiv x 10))⟩
  else if dp = 20 then
    some ⟨TuyaPowerMeasurement.ep_attribute, .single "rms_voltage",
      some fun x => .one (.int (Int.fdiv x 10))⟩
  else none

/-- Source: `TuyaManufClusterDinPower.data_point_handlers` (lines 175-180). -/
def data_point_handlers : ℕ → Bool := fun dp =>
  dp = 17 || dp = 18 || dp = 19 || dp = 20

end TuyaManufClusterDinPower

/-- A cluster's dispatch configuration: its mapping table and its handler
table. -/
structure ClusterConfig where
  dp_to_attribute : ℕ → Option DPToAttributeMapping
  data_point_handlers : ℕ → Bool

/-- The configuration of `DinPowerManufCluster`. -/
def DinPowerManufCluster.config : ClusterConfig :=
  ⟨DinPowerManufCluster.dp_to_attribute, DinPowerManufCluster.data_point_handlers⟩

/-- The configuration of `TuyaManufClusterDinPower` — the cluster actually
installed by `TuyaPowerMeter.replacement`. -/
def TuyaManufClusterDinPower.config : ClusterConfig :=
  ⟨TuyaManufClusterDinPower.dp_to_attribute, TuyaManufClusterDinPower.data_point_handlers⟩

/-- Modelled from the spec (§4.4) and the source's handler indirection:
dispatch of one datapoint report.  A report whose id has no registered
handler, or no mapping-table entry, is dropped without effect; otherwise
the converter (or identity) is applied and the result written to the
target attribute(s), positionally for a tuple target.  An arity mismatch
between converter output and target leaves the store unchanged (internal
invariant violation; never reached by the configurations of this file). -/
def dispatch (cfg : ClusterConfig) (s : Store) (r : DatapointReport) : Store :=
  if cfg.data_point_handlers r.id = false then s
  else
    match cfg.dp_to_attribute r.id with
    | none => s
    | some m =>
        match m.attribute_name, applyConverter m r.value with
        | .single n, .one v => clusterWrite s m.ep_attribute n v
        | .pair n₁ n₂, .two v₁ v₂ =>
            clusterWrite (clusterWrite s m.ep_attribute n₁ v₁) m.ep_attribute n₂ v₂
        | _, _ => s

/-- The zigpy `foundation.Status.SUCCESS` value. -/
def Status_SUCCESS : ℕ := 0x00

/-- Source: `DinPowerManufCluster.TuyaConnectionStatus` — a tsn byte and
a length-prefixed byte string (modelled as the byte list). -/
structure TuyaConnectionStatus where
  tsn : ℕ
  status : List ℕ
deriving DecidableEq, Repr

/-- An outbound command emitted on the cluster's command channel. -/
structure OutboundCommand where
  command_id : ℕ
  payload : TuyaConnectionStatus
deriving DecidableEq, Repr

/-- Source: `DinPowerManufCluster.handle_mcu_connection_status`
(lines 83-96): build a response payload echoing the request's tsn with
status byte `0x01`, emit it as command `0x25`, return `SUCCESS`.  The
emission (a fire-and-forget task in the source) is modelled as the list of
commands the handler sends. -/
def handle_mcu_connection_status (payload : TuyaConnectionStatus) :
    List OutboundCommand × ℕ :=
  ([⟨0x25, ⟨payload.tsn, [0x01]⟩⟩], Status_SUCCESS)

/-- An inbound event: a decoded datapoint report or a connection-status
request. -/
inductive Event where
  | datapoint (r : DatapointReport)
  | connection_status (p : TuyaConnectionStatus)

/-- Device state observable by the claims: the attribute store and the
sequence of outbound commands emitted so far. -/
structure DeviceState where
  store : Store
  outbound : List OutboundCommand
deriving Repr

/-- Modelled from the spec (§5): single-threaded event-driven processing,
one inbound event handled at a time. -/
def processEvent (cfg : ClusterConfig) (st : DeviceState) (e : Event) : DeviceState :=
  match e with
  | .datapoint r => { st with store := dispatch cfg st.store r }
  | .connection_status p =>
      { st with outbound := st.outbound ++ (handle_mcu_connection_status p).1 }

/-- Process a sequence of inbound events in arrival order. -/
def processEvents (cfg : ClusterConfig) (st : DeviceState) (es : List Event) : DeviceState :=
  es.foldl (processEvent cfg) st

/-- Modelled from the code's configuration shape: a `dp_to_attribute`
table is written as a Python dict literal; dict construction inserts the
entries in order, a later entry with an equal key overwriting the earlier,
and never fails. -/
def dictOfEntries (entries : List (ℕ × DPToAttributeMapping)) :
    ℕ → Option DPToAttributeMapping :=
  entries.foldl (fun acc e => fun dp => if dp = e.1 then some e.2 else acc dp)
    (fun _ => none)

/-- Loading a mapping table from its source entry list.  Python dict
construction always succeeds, so this never returns `none`. -/
def loadMappingTable (entries : List (ℕ × DPToAttributeMapping)) :
    Option (ℕ → Option DPToAttributeMapping) :=
  some (dictOfEntries entries)

/-- Whether a converter output's arity matches the target's arity (spec
§3: tuple targets require a tuple result of equal arity). -/
def arityOk : AttrTarget → ConvOut → Bool
  | .single _, .one _ => true
  | .pair _ _, .two _ _ => true
  | _, _ => false

/-- A hypothetical mapping source with two entries sharing datapoint id
`17`, used to examine duplicate-key loading. -/
def dupEntries : List (ℕ × DPToAttributeMapping) :=
  [(17, ⟨TuyaElectricalMeasurement.ep_attribute, .single "current_summ_delivered", none⟩),
   (17, ⟨TuyaPowerMeasurement.ep_attribute, .single "rms_current", none⟩)]

/-! ## Store lemmas -/

theorem lookupStore_storeWrite_self (s : Store) (k : AttrKey) (v : AttrValue) :
    lookupStore (storeWrite s k v) k = some v := by
  induction s with
  | nil => simp [storeWrite, lookupStore]
  | cons hd tl ih =>
      obtain ⟨k', w⟩ := hd
      by_cases h : k' = k <;> simp [storeWrite, lookupStore, h, ih]

theorem lookupStore_storeWrite_ne (s : Store) (k k' : AttrKey) (v : AttrValue)
    (h : k' ≠ k) : lookupStore (storeWrite s k v) k' = lookupStore s k' := by
  induction s with
  | nil => simp [storeWrite, lookupStore, Ne.symm h]
  | cons hd tl ih =>
      obtain ⟨k₀, w⟩ := hd
      by_cases h₀ : k₀ = k
      · subst h₀
        simp [storeWrite, lookupStore, Ne.symm h]
      · simp [storeWrite, lookupStore, h₀, ih]

theorem storeWrite_lookup_eq (s : Store) (k : AttrKey) (v : AttrValue)
    (h : lookupStore s k = some v) : storeWrite s k v = s := by
  induction s with
  | nil => simp [lookupStore] at h
  | cons hd tl ih =>
      obtain ⟨k₀, w⟩ := hd
      by_cases h₀ : k₀ = k
      · subst h₀
        simp [lookupStore] at h
        simp [storeWrite, h]
      · simp [lookupStore, h₀] at h
        simp [storeWrite, h₀, ih h]

theorem storeWrite_storeWrite_same (s : Store) (k : AttrKey) (v w : AttrValue) :
    storeWrite (storeWrite s k v) k w = storeWrite s k w := by
  induction s with
  | nil => simp [storeWrite]
  | cons hd tl ih =>
      obtain ⟨k₀, u⟩ := hd
      by_cases h₀ : k₀ = k <;> simp [storeWrite, h₀, ih]

/-! ## Write lemmas at the cluster level -/

theorem clusterWrite_idem (s : Store) (c n : String) (v : AttrValue) :
    clusterWrite (clusterWrite s c n v) c n v = clusterWrite s c n v := by
  unfold clusterWrite
  cases h : attributeIdOf c n with
  | none => rfl
  | some aid =>
      by_cases hc : (constantAttributes ⟨c, aid⟩).isSome
      · simp [hc]
      · simp [hc]
        exact storeWrite_lookup_eq _ _ _ (lookupStore_storeWrite_self s ⟨c, aid⟩ v)

theorem clusterWrite_pair_idem (s : Store) (c n₁ n₂ : String) (v₁ v₂ : AttrValue) :
    clusterWrite (clusterWrite (clusterWrite (clusterWrite s c n₁ v₁) c n₂ v₂) c n₁ v₁)
      c n₂ v₂ = clusterWrite (clusterWrite s c n₁ v₁) c n₂ v₂ := by
  unfold clusterWrite
  cases h₁ : attributeIdOf c n₁ with
  | none =>
      cases h₂ : attributeIdOf c n₂ with
      | none => rfl
      | some a₂ =>
          by_cases hc₂ : (constantAttributes ⟨c, a₂⟩).isSome
          · simp [hc₂]
          · simp [hc₂]
            exact storeWrite_lookup_eq _ _ _ (lookupStore_storeWrite_self s ⟨c, a₂⟩ v₂)
  | some a₁ =>
      by_cases hc₁ : (constantAttributes ⟨c, a₁⟩).isSome
      · simp only [hc₁, if_true]
        cases h₂ : attributeIdOf c n₂ with
        | none => rfl
        | some a₂ =>
            by_cases hc₂ : (constantAttributes ⟨c, a₂⟩).isSome
            · simp [hc₂]
            · simp [hc₂]
              exact storeWrite_lookup_eq _ _ _ (lookupStore_storeWrite_self s ⟨c, a₂⟩ v₂)
      · simp only [hc₁, if_false, Bool.false_eq_true]
        cases h₂ : attributeIdOf c n₂ with
        | none =>
            simp
            exact storeWrite_lookup_eq _ _ _ (lookupStore_storeWrite_self s ⟨c, a₁⟩ v₁)
        | some a₂ =>
            by_cases hc₂ : (constantAttributes ⟨c, a₂⟩).isSome
            · simp [hc₂]
              exact storeWrite_lookup_eq _ _ _ (lookupStore_storeWrite_self s ⟨c, a₁⟩ v₁)
            · simp only [hc₂, if_false, Bool.false_eq_true]
              by_cases hk : (⟨c, a₁⟩ : AttrKey) = ⟨c, a₂⟩
              · rw [hk, storeWrite_storeWrite_same, storeWrite_storeWrite_same,
                  storeWrite_storeWrite_same]
              · have l₁ : lookupStore (storeWrite (storeWrite s ⟨c, a₁⟩ v₁) ⟨c, a₂⟩ v₂)
                    ⟨c, a₁⟩ = some v₁ := by
                  rw [lookupStore_storeWrite_ne _ _ _ _ hk]
                  exact lookupStore_storeWrite_self s ⟨c, a₁⟩ v₁
                rw [storeWrite_lookup_eq _ _ _ l₁,
                  storeWrite_lookup_eq _ _ _ (lookupStore_storeWrite_self _ ⟨c, a₂⟩ v₂)]

theorem lookupStore_clusterWrite_constant (s : Store) (c n : String) (v : AttrValue)
    (k : AttrKey) (h : (constantAttributes k).isSome = true) :
    lookupStore (clusterWrite s c n v) k = lookupStore s k := by
  unfold clusterWrite
  cases hr : attributeIdOf c n with
  | none => rfl
  | some aid =>
      by_cases hc : (constantAttributes ⟨c, aid⟩).isSome
      · simp [hc]
      · simp only [hc, if_false, Bool.false_eq_true]
        refine lookupStore_storeWrite_ne _ _ _ _ ?_
        intro he
        rw [he] at h
        simp [h] at hc

theorem lookupStore_dispatch_constant (cfg : ClusterConfig) (s : Store)
    (r : DatapointReport) (k : AttrKey) (h : (constantAttributes k).isSome = true) :
    lookupStore (dispatch cfg s r) k = lookupStore s k := by
  by_cases hh : cfg.data_point_handlers r.id = false
  · simp [dispatch, hh]
  · cases hm : cfg.dp_to_attribute r.id with
    | none => simp [dispatch, hh, hm]
    | some m =>
        cases ha : m.attribute_name with
        | single n =>
            cases hc : applyConverter m r.value with
            | one v =>
                simp [dispatch, hh, hm, ha, hc]
                exact lookupStore_clusterWrite_constant _ _ _ _ _ h
            | two v₁ v₂ => simp [dispatch, hh, hm, ha, hc]
        | pair n₁ n₂ =>
            cases hc : applyConverter m r.value with
            | one v => simp [dispatch, hh, hm, ha, hc]
            | two v₁ v₂ =>
                simp [dispatch, hh, hm, ha, hc]
                rw [lookupStore_clusterWrite_constant _ _ _ _ _ h,
                  lookupStore_clusterWrite_constant _ _ _ _ _ h]

theorem lookupStore_dispatches_constant (cfg : ClusterConfig) (rs : List DatapointReport)
    (s : Store) (k : AttrKey) (h : (constantAttributes k).isSome = true) :
    lookupStore (rs.foldl (dispatch cfg) s) k = lookupStore s k := by
  induction rs generalizing s with
  | nil => rfl
  | cons r rest ih =>
      rw [List.foldl_cons, ih (dispatch cfg s r), lookupStore_dispatch_constant cfg s r k h]

theorem processEvents_datapoints_outbound (cfg : ClusterConfig) (st : DeviceState)
    (rs : List DatapointReport) :
    (processEvents cfg st (rs.map Event.datapoint)).outbound = st.outbound := by
  induction rs generalizing st with
  | nil => rfl
  | cons r rest ih =>
      rw [List.map_cons]
      exact ih _

/-! ## Claim theorems -/

/-- Claim C1: a datapoint report whose id is outside the active mapping
table of `TuyaManufClusterDinPower` (hence outside {17, 18, 19, 20}) is
dispatched as a no-op — the attribute store is returned unchanged, and the
dispatch is a total function (no error). -/
theorem claim_C1_unmapped_dispatch_noop (r : DatapointReport) (s : Store)
    (h : r.id ∉ ([17, 18, 19, 20] : List ℕ)) :
    dispatch TuyaManufClusterDinPower.config s r = s := by
  simp only [List.mem_cons, List.not_mem_nil, or_false, not_or] at h
  obtain ⟨h17, h18, h19, h20⟩ := h
  simp [dispatch, TuyaManufClusterDinPower.config,
    TuyaManufClusterDinPower.data_point_handlers, h17, h18, h19, h20]

/-- Witness for C1 at the concrete unmapped id `0x67` (value 100). -/
theorem claim_C1_witness :
    (⟨0x67, 100⟩ : DatapointReport).id ∉ ([17, 18, 19, 20] : List ℕ) ∧
      dispatch TuyaManufClusterDinPower.config [] ⟨0x67, 100⟩ = [] :=
  ⟨by decide, claim_C1_unmapped_dispatch_noop ⟨0x67, 100⟩ [] (by decide)⟩

/-- Claim C3: dispatching datapoint 19 with raw value 2300 stores 230 in
`active_power` (id 0x050B) and datapoint 20 with 2300 stores 230 in
`rms_voltage` (id 0x0505) of the power-measurement cluster, and the
configured converter of both datapoints is `v -> v // 10` (floor
division). -/
theorem claim_C3_scaled_power_voltage (s : Store) :
    clusterRead (dispatch TuyaManufClusterDinPower.config s ⟨19, 2300⟩)
        ⟨TuyaPowerMeasurement.ep_attribute, 0x050B⟩ = some (.int 230) ∧
    clusterRead (dispatch TuyaManufClusterDinPower.config s ⟨20, 2300⟩)
        ⟨TuyaPowerMeasurement.ep_attribute, 0x0505⟩ = some (.int 230) ∧
    (∀ v : ℤ, (TuyaManufClusterDinPower.dp_to_attribute 19).map
        (fun m => applyConverter m v) = some (.one (.int (Int.fdiv v 10)))) ∧
    (∀ v : ℤ, (TuyaManufClusterDinPower.dp_to_attribute 20).map
        (fun m => applyConverter m v) = some (.one (.int (Int.fdiv v 10)))) := by
  refine ⟨?_, ?_, fun v => rfl, fun v => rfl⟩ <;>
  · simp [dispatch, TuyaManufClusterDinPower.config,
      TuyaManufClusterDinPower.dp_to_attribute,
      TuyaManufClusterDinPower.data_point_handlers, applyConverter, clusterWrite,
      attributeIdOf, clusterRead, constantAttributes,
      TuyaPowerMeasurement.CONSTANT_ATTRIBUTES, TuyaPowerMeasurement.ep_attribute,
      TuyaPowerMeasurement.AC_CURRENT_MULTIPLIER, TuyaPowerMeasurement.AC_CURRENT_DIVISOR,
      TuyaElectricalMeasurement.ep_attribute, lookupStore_storeWrite_self]

/-- Claim C6: dispatch is idempotent — dispatching the same report twice
from any starting store ends in the same store as dispatching it once,
for every cluster configuration. -/
theorem claim_C6_dispatch_idempotent (cfg : ClusterConfig) (s : Store)
    (r : DatapointReport) :
    dispatch cfg (dispatch cfg s r) r = dispatch cfg s r := by
  by_cases hh : cfg.data_point_handlers r.id = false
  · simp [dispatch, hh]
  · cases hm : cfg.dp_to_attribute r.id with
    | none => simp [dispatch, hh, hm]
    | some m =>
        cases ha : m.attribute_name with
        | single n =>
            cases hc : applyConverter m r.value with
            | one v => simp [dispatch, hh, hm, ha, hc, clusterWrite_idem]
            | two v₁ v₂ => simp [dispatch, hh, hm, ha, hc]
        | pair n₁ n₂ =>
            cases hc : applyConverter m r.value with
            | one v => simp [dispatch, hh, hm, ha, hc]
            | two v₁ v₂ => simp [dispatch, hh, hm, ha, hc, clusterWrite_pair_idem]

/-- Claim C9: the subclass table of `TuyaManufClusterDinPower` (the
cluster the device replacement installs) replaces the parent's: every id
mapped by `DinPowerManufCluster` is absent from the subclass table, and
dispatching it through the installed cluster is a no-op. -/
theorem claim_C9_subclass_table_replaces (dp : ℕ)
    (h : dp ∈ ([0x01, 0x06, 0x10, 0x66, 0x67, 0x69, 0x6D, 0x6E, 0x6F] : List ℕ)) :
    (DinPowerManufCluster.dp_to_attribute dp).isSome = true ∧
    TuyaManufClusterDinPower.dp_to_attribute dp = none ∧
    ∀ (s : Store) (v : ℤ), dispatch TuyaManufClusterDinPower.config s ⟨dp, v⟩ = s := by
  fin_cases h <;> exact ⟨rfl, rfl, fun s v => rfl⟩

/-- Witness for C9 at the concrete parent-mapped id `0x67`. -/
theorem claim_C9_witness :
    (0x67 : ℕ) ∈ ([0x01, 0x06, 0x10, 0x66, 0x67, 0x69, 0x6D, 0x6E, 0x6F] : List ℕ) ∧
    (TuyaManufClusterDinPower.dp_to_attribute 0x67 = none ∧
      dispatch TuyaManufClusterDinPower.config [] ⟨0x67, 1⟩ = []) :=
  ⟨by decide, (claim_C9_subclass_table_replaces 0x67 (by decide)).2.1,
    (claim_C9_subclass_table_replaces 0x67 (by decide)).2.2 [] 1⟩

/-- Claim C5: constant attributes are invariant under every sequence of
dispatches — after any report sequence, `AC_CURRENT_DIVISOR` (0x0603)
reads 1000, `AC_CURRENT_MULTIPLIER` (0x0602) reads 1, the metering
divisor (0x0302) reads 1000 and unit_of_measure (0x0300) reads 0, and
the mutable store is unchanged at every constant attribute key. -/
theorem claim_C5_constants_invariant (cfg : ClusterConfig) (s : Store)
    (rs : List DatapointReport) :
    clusterRead (rs.foldl (dispatch cfg) s)
        ⟨TuyaPowerMeasurement.ep_attribute, TuyaPowerMeasurement.AC_CURRENT_DIVISOR⟩
      = some (.int 1000) ∧
    clusterRead (rs.foldl (dispatch cfg) s)
        ⟨TuyaPowerMeasurement.ep_attribute, TuyaPowerMeasurement.AC_CURRENT_MULTIPLIER⟩
      = some (.int 1) ∧
    clusterRead (rs.foldl (dispatch cfg) s)
        ⟨TuyaElectricalMeasurement.ep_attribute, 0x0302⟩ = some (.int 1000) ∧
    clusterRead (rs.foldl (dispatch cfg) s)
        ⟨TuyaElectricalMeasurement.ep_attribute, 0x0300⟩ = some (.int 0) ∧
    ∀ k : AttrKey, (constantAttributes k).isSome = true →
      lookupStore (rs.foldl (dispatch cfg) s) k = lookupStore s k :=
  ⟨rfl, rfl, rfl, rfl, fun k h => lookupStore_dispatches_constant cfg rs s k h⟩

/-- Witness for C5 at a concrete configuration, store, report sequence
and constant key. -/
theorem claim_C5_witness :
    (constantAttributes ⟨TuyaPowerMeasurement.ep_attribute,
        TuyaPowerMeasurement.AC_CURRENT_DIVISOR⟩).isSome = true ∧
    lookupStore (([⟨19, 2300⟩] : List DatapointReport).foldl
        (dispatch TuyaManufClusterDinPower.config) [])
        ⟨TuyaPowerMeasurement.ep_attribute, TuyaPowerMeasurement.AC_CURRENT_DIVISOR⟩
      = lookupStore []
        ⟨TuyaPowerMeasurement.ep_attribute, TuyaPowerMeasurement.AC_CURRENT_DIVISOR⟩ :=
  ⟨by decide,
    (claim_C5_constants_invariant TuyaManufClusterDinPower.config [] [⟨19, 2300⟩]).2.2.2.2
      _ (by decide)⟩

/-- Claim C2: an inbound connection-status request with sequence number
`n` causes exactly one outbound response, carrying tsn `n` and the single
status byte 0x01, whatever datapoint dispatches preceded it; the handler
returns `SUCCESS`. -/
theorem claim_C2_connection_status_echo (cfg : ClusterConfig)
    (rs : List DatapointReport) (s : Store) (p : TuyaConnectionStatus) :
    (processEvents cfg ⟨s, []⟩
        (rs.map Event.datapoint ++ [Event.connection_status p])).outbound
      = [⟨0x25, ⟨p.tsn, [0x01]⟩⟩] ∧
    (handle_mcu_connection_status p).2 = Status_SUCCESS ∧
    (handle_mcu_connection_status ⟨7, []⟩).1 = [⟨0x25, ⟨7, [0x01]⟩⟩] := by
  refine ⟨?_, rfl, rfl⟩
  unfold processEvents
  rw [List.foldl_append]
  simp only [List.foldl_cons, List.foldl_nil]
  show (processEvent cfg (processEvents cfg ⟨s, []⟩ (rs.map Event.datapoint)) _).outbound = _
  simp [processEvent, handle_mcu_connection_status,
    processEvents_datapoints_outbound cfg ⟨s, []⟩ rs]

/-- Claim C4: for every tuple-mapped datapoint the two components of the
converter's output pair are written to the first and second attribute of
the mapping's pair respectively; concretely, dispatching datapoint 0x06
with value 0x00010032 through `DinPowerManufCluster` yields
`rms_current` (0x0508) = 1 and `rms_voltage` (0x0505) = 5. -/
theorem claim_C4_tuple_positional_fanout :
    (∀ (cfg : ClusterConfig) (s : Store) (r : DatapointReport)
        (m : DPToAttributeMapping) (n₁ n₂ : String) (v₁ v₂ : AttrValue),
      cfg.data_point_handlers r.id = true →
      cfg.dp_to_attribute r.id = some m →
      m.attribute_name = .pair n₁ n₂ →
      applyConverter m r.value = .two v₁ v₂ →
      dispatch cfg s r =
        clusterWrite (clusterWrite s m.ep_attribute n₁ v₁) m.ep_attribute n₂ v₂) ∧
    ∀ s : Store,
      clusterRead (dispatch DinPowerManufCluster.config s ⟨0x06, 0x00010032⟩)
          ⟨TuyaPowerMeasurement.ep_attribute, 0x0508⟩ = some (.int 1) ∧
      clusterRead (dispatch DinPowerManufCluster.config s ⟨0x06, 0x00010032⟩)
          ⟨TuyaPowerMeasurement.ep_attribute, 0x0505⟩ = some (.rat 5) := by
  constructor
  · intro cfg s r m n₁ n₂ v₁ v₂ hh hm ha hc
    simp [dispatch, hh, hm, ha, hc]
  · intro s
    have hk : (⟨"electrical_measurement", 0x0508⟩ : AttrKey)
        ≠ ⟨"electrical_measurement", 0x0505⟩ := by decide
    have hdiv : Int.fdiv 0x00010032 65536 = 1 := by decide
    have hmod : Int.emod 0x00010032 65536 = 50 := by decide
    have hq : ((50 : ℚ) / 10) = 5 := by norm_num
    constructor <;>
    · simp [dispatch, DinPowerManufCluster.config, DinPowerManufCluster.dp_to_attribute,
        DinPowerManufCluster.data_point_handlers, applyConverter, clusterWrite,
        attributeIdOf, clusterRead, constantAttributes,
        TuyaPowerMeasurement.CONSTANT_ATTRIBUTES, TuyaPowerMeasurement.ep_attribute,
        TuyaPowerMeasurement.AC_CURRENT_MULTIPLIER, TuyaPowerMeasurement.AC_CURRENT_DIVISOR,
        TuyaElectricalMeasurement.ep_attribute, hdiv, hmod, hq,
        lookupStore_storeWrite_self, lookupStore_storeWrite_ne _ _ _ _ hk]

/-- Witness for C4 at the concrete tuple mapping of datapoint 0x06. -/
theorem claim_C4_witness :
    DinPowerManufCluster.config.data_point_handlers 0x06 = true ∧
    dispatch DinPowerManufCluster.config [] ⟨0x06, 0x00010032⟩ =
      clusterWrite
        (clusterWrite [] TuyaPowerMeasurement.ep_attribute "rms_current"
          (.int (Int.fdiv 0x00010032 65536)))
        TuyaPowerMeasurement.ep_attribute "rms_voltage"
        (.rat ((Int.emod 0x00010032 65536 : ℚ) / 10)) :=
  ⟨by decide,
    claim_C4_tuple_positional_fanout.1 DinPowerManufCluster.config [] ⟨0x06, 0x00010032⟩
      ⟨TuyaPowerMeasurement.ep_attribute, .pair "rms_current" "rms_voltage",
        some fun x => .two (.int (Int.fdiv x 65536)) (.rat ((Int.emod x 65536 : ℚ) / 10))⟩
      "rms_current" "rms_voltage" _ _ (by decide) rfl rfl rfl⟩

/-- Counterexample to claim C7 as stated: a mapping source with two
entries for datapoint id 17 is not rejected at load — Python dict
construction succeeds and silently keeps the later entry
(last-write-wins). -/
theorem claim_C7_counterexample :
    loadMappingTable dupEntries ≠ none ∧
    dictOfEntries dupEntries 17 =
      some ⟨TuyaPowerMeasurement.ep_attribute, .single "rms_current", none⟩ ∧
    dictOfEntries dupEntries 17 ≠
      some ⟨TuyaElectricalMeasurement.ep_attribute,
        .single "current_summ_delivered", none⟩ := by
  refine ⟨by simp [loadMappingTable], rfl, fun h => ?_⟩
  simp [dictOfEntries, dupEntries, TuyaPowerMeasurement.ep_attribute,
    TuyaElectricalMeasurement.ep_attribute] at h

/-- Claim C7 amended: loading a mapping source never rejects it —
Python dict construction always succeeds; an entry overwrites any earlier
entry with the same datapoint id (last-write-wins) and leaves every other
id's binding unchanged. -/
theorem claim_C7_load_last_write_wins
    (entries pre : List (ℕ × DPToAttributeMapping)) (dp dp' : ℕ)
    (m : DPToAttributeMapping) :
    (loadMappingTable entries).isSome = true ∧
    dictOfEntries (pre ++ [(dp, m)]) dp = some m ∧
    (dp' ≠ dp → dictOfEntries (pre ++ [(dp, m)]) dp' = dictOfEntries pre dp') := by
  refine ⟨rfl, ?_, fun hne => ?_⟩
  · simp [dictOfEntries, List.foldl_append]
  · simp [dictOfEntries, List.foldl_append, hne]

/-- Witness for C7's amended statement on the duplicate-id source. -/
theorem claim_C7_witness :
    (18 : ℕ) ≠ 17 ∧
    dictOfEntries
        ([(17, ⟨TuyaElectricalMeasurement.ep_attribute,
            .single "current_summ_delivered", none⟩)]
          ++ [(17, ⟨TuyaPowerMeasurement.ep_attribute, .single "rms_current", none⟩)]) 18
      = dictOfEntries
        [(17, ⟨TuyaElectricalMeasurement.ep_attribute,
            .single "current_summ_delivered", none⟩)] 18 :=
  ⟨by decide,
    (claim_C7_load_last_write_wins []
      [(17, ⟨TuyaElectricalMeasurement.ep_attribute,
          .single "current_summ_delivered", none⟩)]
      17 18 ⟨TuyaPowerMeasurement.ep_attribute, .single "rms_current", none⟩).2.2
      (by decide)⟩

/-- Claim C8: every configured conversion function of both mapping tables
is total over the integers its datapoint can carry, and its output arity
always matches the target's arity, so dispatch never hits the
arity-mismatch branch and never fails. -/
theorem claim_C8_converters_total (dp : ℕ) (m : DPToAttributeMapping)
    (h : DinPowerManufCluster.dp_to_attribute dp = some m ∨
      TuyaManufClusterDinPower.dp_to_attribute dp = some m) :
    ∀ v : ℤ, arityOk m.attribute_name (applyConverter m v) = true := by
  intro v
  rcases h with h | h
  · unfold DinPowerManufCluster.dp_to_attribute at h
    repeat' split at h
    all_goals first
      | (injection h with h; subst h; rfl)
      | exact Option.noConfusion h
  · unfold TuyaManufClusterDinPower.dp_to_attribute at h
    repeat' split at h
    all_goals first
      | (injection h with h; subst h; rfl)
      | exact Option.noConfusion h

/-- Witness for C8 at datapoint 19 of the installed table, value -7. -/
theorem claim_C8_witness :
    (DinPowerManufCluster.dp_to_attribute 19 =
        some ⟨TuyaPowerMeasurement.ep_attribute, .single "active_power",
          some fun x => .one (.int (Int.fdiv x 10))⟩ ∨
      TuyaManufClusterDinPower.dp_to_attribute 19 =
        some ⟨TuyaPowerMeasurement.ep_attribute, .single "active_power",
          some fun x => .one (.int (Int.fdiv x 10))⟩) ∧
    arityOk (AttrTarget.single "active_power")
      (applyConverter
        ⟨TuyaPowerMeasurement.ep_attribute, .single "active_power",
          some fun x => .one (.int (Int.fdiv x 10))⟩ (-7)) = true :=
  ⟨Or.inr rfl, claim_C8_converters_total 19 _ (Or.inr rfl) (-7)⟩

/-- Claim C10: the converters of datapoints 19 and 20 are floor division
by 10: the stored value is `Int.fdiv v 10`, which satisfies the floor
bounds for every `v`, agrees with truncating division on non-negative
inputs, and on `v = -15` stores -2 (floor) where truncation would give
-1. -/
theorem claim_C10_floor_division :
    (∀ v : ℤ, (TuyaManufClusterDinPower.dp_to_attribute 19).map
        (fun m => applyConverter m v) = some (.one (.int (Int.fdiv v 10)))) ∧
    (∀ v : ℤ, (TuyaManufClusterDinPower.dp_to_attribute 20).map
        (fun m => applyConverter m v) = some (.one (.int (Int.fdiv v 10)))) ∧
    (∀ v : ℤ, 10 * Int.fdiv v 10 ≤ v ∧ v < 10 * Int.fdiv v 10 + 10) ∧
    (∀ v : ℤ, 0 ≤ v → Int.fdiv v 10 = Int.tdiv v 10) ∧
    Int.fdiv (-15) 10 = -2 ∧ Int.tdiv (-15) 10 = -1 ∧
    ∀ s : Store,
      clusterRead (dispatch TuyaManufClusterDinPower.config s ⟨19, -15⟩)
        ⟨TuyaPowerMeasurement.ep_attribute, 0x050B⟩ = some (.int (-2)) := by
  have hneg : Int.fdiv (-15) 10 = -2 := by decide
  refine ⟨fun v => rfl, fun v => rfl, fun v => ?_, fun v hv => ?_, hneg, by decide,
    fun s => ?_⟩
  · rw [Int.fdiv_eq_ediv v (by norm_num)]
    omega
  · rw [Int.fdiv_eq_ediv v (by norm_num), Int.tdiv_eq_ediv hv (by norm_num)]
  · simp [dispatch, TuyaManufClusterDinPower.config,
      TuyaManufClusterDinPower.dp_to_attribute,
      TuyaManufClusterDinPower.data_point_handlers, applyConverter, clusterWrite,
      attributeIdOf, clusterRead, constantAttributes,
      TuyaPowerMeasurement.CONSTANT_ATTRIBUTES, TuyaPowerMeasurement.ep_attribute,
      TuyaPowerMeasurement.AC_CURRENT_MULTIPLIER, TuyaPowerMeasurement.AC_CURRENT_DIVISOR,
      TuyaElectricalMeasurement.ep_attribute, hneg, lookupStore_storeWrite_self]

/-- Witness for C10's non-negative agreement at `v = 23`. -/
theorem claim_C10_witness : (0 : ℤ) ≤ 23 ∧ Int.fdiv 23 10 = Int.tdiv 23 10 :=
  ⟨by decide, claim_C10_floor_division.2.2.2.1 23 (by decide)⟩

end TS0601PowerMeter
